import Mathlib

/-!
Verification of the cobalt tag-access utility (src/main.rs).

The development shallowly embeds the three bridge-subsystem components:

* the Register Decoder `u16_to_f32` (main.rs lines 481-485), modelled at the
  bit level: an `f32` value is represented by its 32-bit pattern as a `Nat`
  below `2 ^ 32`, so that the reinterpretation `f32::from_ne_bytes` is the
  identity on patterns and non-finite values (NaN, ±Inf) are ordinary
  patterns.  The native byte order used by `to_ne_bytes` / `from_ne_bytes`
  is an explicit `ByteOrder` parameter, since the host's endianness is not
  fixed at compile time.
* the Flow Corrector `velocity_to_rate` (main.rs lines 487-541), modelled
  over exact rationals `ℚ` (an exact-arithmetic model of the f32/f64
  computation), with the external AGA8 Detail equation-of-state solve
  abstracted as a function `z : Composition → ℚ → ℚ → ℚ` giving the
  compressibility factor at a composition, a pressure in kPa, and a
  temperature in K (the library's units).
* the body of the `Commands::BridgeWrite` polling loop (main.rs lines
  236-272), as a function from an environment describing the outcome of
  the four fallible reads and the two fallible writes of one cycle to the
  cycle's observable event trace and outcome.
-/

namespace Cobalt

/-! ## Register Decoder: `u16_to_f32` (main.rs lines 481-485)

```rust
fn u16_to_f32(first: u16, second: u16) -> f32 {
    let data_32bit_rep = ((first as u32) << 16) | second as u32;
    let data_32_array = data_32bit_rep.to_ne_bytes();
    f32::from_ne_bytes(data_32_array)
}
```
-/

/-- The host's native byte order, used by `u32::to_ne_bytes` and
`f32::from_ne_bytes`. -/
inductive ByteOrder where
  | le
  | be
deriving DecidableEq, Repr

/-- `u32::to_le_bytes`: the four bytes of a 32-bit word, least significant
first. -/
def u32_to_le_bytes (x : Nat) : Nat × Nat × Nat × Nat :=
  (x % 256, x / 256 % 256, x / 65536 % 256, x / 16777216 % 256)

/-- `u32::to_be_bytes`: the four bytes of a 32-bit word, most significant
first. -/
def u32_to_be_bytes (x : Nat) : Nat × Nat × Nat × Nat :=
  (x / 16777216 % 256, x / 65536 % 256, x / 256 % 256, x % 256)

/-- `u32::to_ne_bytes`: native byte order. -/
def u32_to_ne_bytes (e : ByteOrder) (x : Nat) : Nat × Nat × Nat × Nat :=
  match e with
  | .le => u32_to_le_bytes x
  | .be => u32_to_be_bytes x

/-- `f32::from_le_bytes`, on bit patterns: rebuild the 32-bit pattern from
four bytes, least significant first. -/
def f32_from_le_bytes (b : Nat × Nat × Nat × Nat) : Nat :=
  b.1 + 256 * b.2.1 + 65536 * b.2.2.1 + 16777216 * b.2.2.2

/-- `f32::from_be_bytes`, on bit patterns. -/
def f32_from_be_bytes (b : Nat × Nat × Nat × Nat) : Nat :=
  16777216 * b.1 + 65536 * b.2.1 + 256 * b.2.2.1 + b.2.2.2

/-- `f32::from_ne_bytes`: native byte order. -/
def f32_from_ne_bytes (e : ByteOrder) (b : Nat × Nat × Nat × Nat) : Nat :=
  match e with
  | .le => f32_from_le_bytes b
  | .be => f32_from_be_bytes b

/-- The Register Decoder `u16_to_f32` (main.rs lines 481-485).  Inputs are
the two 16-bit register words (reduced mod `2 ^ 16`, the `u16` range); the
result is the bit pattern of the returned `f32`.  `(first as u32) << 16`
cannot overflow a `u32`, so the Rust shift is the plain `Nat` shift here. -/
def u16_to_f32 (e : ByteOrder) (first second : Nat) : Nat :=
  let data_32bit_rep := ((first % 65536) <<< 16) ||| (second % 65536)
  let data_32_array := u32_to_ne_bytes e data_32bit_rep
  f32_from_ne_bytes e data_32_array

/-- The high 16-bit word of a 32-bit pattern: the first half of re-encoding
a decoded `f32` back into two register words. -/
def encode_hi (x : Nat) : Nat := x / 65536 % 65536

/-- The low 16-bit word of a 32-bit pattern: the second half of re-encoding
a decoded `f32` back into two register words. -/
def encode_lo (x : Nat) : Nat := x % 65536

/-- Direct model of `f32::from_bits(((a as u32) << 16) | b as u32)`,
with no byte-order detour: the spec-side description of the decoder. -/
def u16_to_f32_direct (first second : Nat) : Nat :=
  ((first % 65536) <<< 16) ||| (second % 65536)

/-- A 32-bit pattern with all exponent bits set and a nonzero mantissa
encodes an IEEE-754 binary32 NaN. -/
def isNanPat (x : Nat) : Prop := x / 8388608 % 256 = 255 ∧ x % 8388608 ≠ 0

/-- A 32-bit pattern with all exponent bits set and a zero mantissa encodes
+Inf or -Inf. -/
def isInfPat (x : Nat) : Prop := x / 8388608 % 256 = 255 ∧ x % 8388608 = 0

instance (x : Nat) : Decidable (isNanPat x) := by unfold isNanPat; infer_instance

instance (x : Nat) : Decidable (isInfPat x) := by unfold isInfPat; infer_instance

/-- Shifting the (masked) first word left by 16 and or-ing in the (masked)
second word is exact arithmetic: the two bit ranges are disjoint. -/
theorem shiftLeft_or_eq_mul_add (a b : Nat) :
    ((a % 65536) <<< 16) ||| (b % 65536) = (a % 65536) * 65536 + (b % 65536) := by
  have hb : b % 65536 < 2 ^ 16 := Nat.mod_lt _ (by norm_num)
  have h := Nat.mul_add_lt_is_or hb (a % 65536)
  rw [Nat.shiftLeft_eq]
  calc (a % 65536) * 2 ^ 16 ||| (b % 65536)
      = 2 ^ 16 * (a % 65536) ||| (b % 65536) := by rw [Nat.mul_comm]
    _ = 2 ^ 16 * (a % 65536) + (b % 65536) := h.symm
    _ = (a % 65536) * 65536 + (b % 65536) := by rw [Nat.mul_comm]

/-- The combined 32-bit pattern fits in a `u32`. -/
theorem combined_lt (a b : Nat) : (a % 65536) * 65536 + (b % 65536) < 4294967296 := by
  have ha : a % 65536 < 65536 := Nat.mod_lt _ (by norm_num)
  have hb : b % 65536 < 65536 := Nat.mod_lt _ (by norm_num)
  omega

/-- The `to_ne_bytes` / `from_ne_bytes` pair is the identity on `u32`
bit patterns, for either byte order. -/
theorem from_ne_to_ne (e : ByteOrder) (x : Nat) (hx : x < 4294967296) :
    f32_from_ne_bytes e (u32_to_ne_bytes e x) = x := by
  cases e <;>
    simp only [f32_from_ne_bytes, u32_to_ne_bytes, f32_from_le_bytes,
      f32_from_be_bytes, u32_to_le_bytes, u32_to_be_bytes] <;>
    omega

/-- On any host byte order, the decoder returns the pattern with `first` in
the high 16 bits and `second` in the low 16 bits. -/
theorem u16_to_f32_eq (e : ByteOrder) (a b : Nat) :
    u16_to_f32 e a b = (a % 65536) * 65536 + (b % 65536) := by
  unfold u16_to_f32
  rw [shiftLeft_or_eq_mul_add]
  exact from_ne_to_ne e _ (combined_lt a b)

/-! ## Flow Corrector: `velocity_to_rate` (main.rs lines 487-541)

```rust
fn velocity_to_rate(velocity: f32, diameter: f32, pressure: f32, temperature: f32) -> f32 {
    ...
    aga8_test.set_composition(&comp).unwrap();
    aga8_test.p = pressure as f64 * 100.0;
    aga8_test.t = temperature as f64 + 273.15;
    aga8_test.density();
    aga8_test.properties();
    let z_f = aga8_test.z;
    aga8_test.p = 14.73 * 6.89476;
    aga8_test.t = ((60.0 as f64) - 32.0) * 5.0 / 9.0 + 273.15;
    aga8_test.density();
    aga8_test.properties();
    let z_b = aga8_test.z;
    let act_flow =
        (PI * (diameter / 12.0) * (diameter / 12.0) / 4.0) * (velocity * 3.28083) * 3600.0;
    let base_flow = ((act_flow * (((pressure / 0.068947573) + 14.696) * 6894.7573)
        / (14.73 * 6894.7573))
        * ((288.7056) / (temperature + 273.15))
        * (z_b / z_f) as f32)
        * 0.0283168466
        * 24.0;
    base_flow
}
```

The arithmetic is modelled exactly over `ℚ`.  The external `aga8::detail::Detail`
solve is abstracted: after `set_composition`, a fresh assignment of `p` and `t`
followed by `density()` and `properties()` makes `aga8_test.z` a pure function
of the composition and the assigned `(p, t)` (pressure in kPa, temperature in
K), so it is modelled as an opaque parameter `z : Composition → ℚ → ℚ → ℚ`.
-/

/-- `aga8::composition::Composition`: mole fractions of the 21 AGA8
components. -/
structure Composition where
  methane : ℚ
  nitrogen : ℚ
  carbon_dioxide : ℚ
  ethane : ℚ
  propane : ℚ
  isobutane : ℚ
  n_butane : ℚ
  isopentane : ℚ
  n_pentane : ℚ
  hexane : ℚ
  heptane : ℚ
  octane : ℚ
  nonane : ℚ
  decane : ℚ
  hydrogen : ℚ
  oxygen : ℚ
  carbon_monoxide : ℚ
  water : ℚ
  hydrogen_sulfide : ℚ
  helium : ℚ
  argon : ℚ
deriving DecidableEq

/-- The hard-coded gas composition of `velocity_to_rate`
(main.rs lines 493-515). -/
def comp : Composition :=
  { methane := 0.79
    nitrogen := 0.04
    carbon_dioxide := 0.04
    ethane := 0.0
    propane := 0.13
    isobutane := 0.0
    n_butane := 0.0
    isopentane := 0.0
    n_pentane := 0.0
    hexane := 0.0
    heptane := 0.0
    octane := 0.0
    nonane := 0.0
    decane := 0.0
    hydrogen := 0.0
    oxygen := 0.0
    carbon_monoxide := 0.0
    water := 0.0
    hydrogen_sulfide := 0.0
    helium := 0.0
    argon := 0.0 }

/-- `std::f32::consts::PI`: the exact value of the `f32` constant,
`0x40490FDB` = `13176795 * 2 ^ -22`. -/
def pi32 : ℚ := 13176795 / 4194304

/-- The Flow Corrector `velocity_to_rate` (main.rs lines 487-541), over exact
rationals, with the AGA8 solve abstracted as `z`.  `velocity` is in m/s,
`diameter` in inches, `pressure` in barg, `temperature` in °C. -/
def velocity_to_rate (z : Composition → ℚ → ℚ → ℚ)
    (velocity diameter pressure temperature : ℚ) : ℚ :=
  let z_f := z comp (pressure * 100.0) (temperature + 273.15)
  let z_b := z comp (14.73 * 6.89476) ((60.0 - 32.0) * 5.0 / 9.0 + 273.15)
  let act_flow :=
    (pi32 * (diameter / 12.0) * (diameter / 12.0) / 4.0) * (velocity * 3.28083) * 3600.0
  let base_flow := ((act_flow * (((pressure / 0.068947573) + 14.696) * 6894.7573)
      / (14.73 * 6894.7573))
      * ((288.7056) / (temperature + 273.15))
      * (z_b / z_f))
      * 0.0283168466
      * 24.0
  base_flow

/-! Spec-side definitions (each named from §4.2 of the design):
the factored form `base_flow = actual_flow × (actual_pressure_abs /
base_pressure_abs) × (base_temp_abs / actual_temp_abs) × (z_base /
z_actual)` followed by the fixed unit conversions. -/

/-- Pipe cross-sectional area (ft²) derived from the diameter in inches. -/
def cross_section_area (diameter : ℚ) : ℚ :=
  pi32 * (diameter / 12.0) * (diameter / 12.0) / 4.0

/-- Actual volumetric flow (ft³/hr) from velocity (m/s) and the pipe
cross-sectional area. -/
def actual_flow (velocity diameter : ℚ) : ℚ :=
  cross_section_area diameter * (velocity * 3.28083) * 3600.0

/-- The live absolute pressure in Pa: gauge barg → psig → + 14.696 psi
atmospheric offset → psia → Pa. -/
def actual_pressure_abs (pressure : ℚ) : ℚ :=
  ((pressure / 0.068947573) + 14.696) * 6894.7573

/-- The base (standard) absolute pressure in Pa: 14.73 psia. -/
def base_pressure_abs : ℚ := 14.73 * 6894.7573

/-- The base (standard) absolute temperature in K (60 °F). -/
def base_temp_abs : ℚ := 288.7056

/-- The live absolute temperature in K: Celsius + 273.15. -/
def actual_temp_abs (temperature : ℚ) : ℚ := temperature + 273.15

/-- The compressibility factor at the live condition: the code evaluates the
equation of state at `pressure * 100` kPa and `temperature + 273.15` K with
the fixed composition. -/
def z_actual (z : Composition → ℚ → ℚ → ℚ) (pressure temperature : ℚ) : ℚ :=
  z comp (pressure * 100.0) (temperature + 273.15)

/-- The compressibility factor at the base condition: the equation of state
evaluated at 14.73 psia (= 14.73 × 6.89476 kPa) and 60 °F
(= (60 − 32) × 5/9 + 273.15 K) with the same fixed composition. -/
def z_base (z : Composition → ℚ → ℚ → ℚ) : ℚ :=
  z comp (14.73 * 6.89476) ((60.0 - 32.0) * 5.0 / 9.0 + 273.15)

/-- The spec-side factored form of the correction (§4.2 step 4): actual flow
scaled by the ideal/real-gas ratio, then the fixed unit conversions
ft³ → m³ (× 0.0283168466) and hr → day (× 24), yielding Sm³/day. -/
def correct_rate_spec (z : Composition → ℚ → ℚ → ℚ)
    (velocity diameter pressure temperature : ℚ) : ℚ :=
  actual_flow velocity diameter
    * (actual_pressure_abs pressure / base_pressure_abs)
    * (base_temp_abs / actual_temp_abs temperature)
    * (z_base z / z_actual z pressure temperature)
    * 0.0283168466
    * 24.0

/-- The live absolute pressure expressed in kPa, the unit in which the code
hands pressures to the AGA8 solve: gauge + atmospheric offset, converted at
the code's own conversion factors. -/
def actual_pressure_abs_kPa (pressure : ℚ) : ℚ :=
  ((pressure / 0.068947573) + 14.696) * 6.89476

/-- A constant equation-of-state model: `z = 1` everywhere. -/
def zOne : Composition → ℚ → ℚ → ℚ := fun _ _ _ => 1

/-- An equation-of-state model that differs from `zOne` only at the single
pressure 500 kPa (the gauge pressure 5 barg scaled by 100). -/
def zProbe : Composition → ℚ → ℚ → ℚ :=
  fun _ p _ => if p = 500 then 2 else 1

/-! ## Cycle Orchestrator: the `Commands::BridgeWrite` loop body
(main.rs lines 236-272)

One iteration of the `loop`:

1. `read_holding_registers(rtu_register_velocity, 2)` — fallible (`?`);
2. decode the pair into `velocity`;
3. `read_holding_registers(rtu_register_rate, 2)` — fallible (`?`);
4. decode the pair into `rate`;
5. `read_tag(pressure_tag)` — fallible (`?`);
6. `read_tag(temperature_tag)` — fallible (`?`);
7. `rate_base = velocity_to_rate(velocity, diameter, pressure.value, temperature.value)`;
8. `print!` of the status line (velocity, pressure, temperature, rate_base);
9. `write_tag(rate_tag, TagValue { Real, rate })` — `.unwrap()` panics on failure;
10. `write_tag(rate_tag_base, TagValue { Real, rate_base })` — `.unwrap()` panics on failure;
11. `sleep(500 ms)` (a pure delay, not an observable event).

Any failed read propagates out of `main` via `?`; any failed write panics.
Either way the loop terminates: the model collapses both into the `faulted`
outcome.  The model is generic over the value type `V` carried by decoded
floats and tags, over the register decoder `dec` (instantiated by
`u16_to_f32` in the program) and over the corrector `cor` (instantiated by
`velocity_to_rate`), since the orchestrator only composes them.
-/

/-- `rseip` `TagType` (the variants the program uses). -/
inductive TagType where
  | Bool
  | Int
  | Dint
  | Real
deriving DecidableEq, Repr

/-- `rseip` `TagValue`: a typed tag value. -/
structure TagValue (V : Type) where
  tag_type : TagType
  value : V
deriving DecidableEq, Repr

/-- The two distinct destination tag paths of the bridge loop. -/
inductive TagId where
  | rate_tag
  | rate_tag_base
deriving DecidableEq, Repr

/-- Observable events of one bridge cycle: the status report (`print!`) and
the tag write attempts (`ok` records whether the write succeeded). -/
inductive Event (V : Type) where
  | statusReport (velocity pressure temperature rateBase : V)
  | tagWrite (tag : TagId) (val : TagValue V) (ok : Bool)
deriving DecidableEq, Repr

/-- Outcome of one cycle: the loop continues to the sleep and the next
cycle, or terminates (error propagation via `?`, or panic via `unwrap`). -/
inductive Outcome where
  | ok
  | faulted
deriving DecidableEq, Repr

/-- The environment of one cycle: the outcome of each fallible protocol
interaction, in program order.  `none` is a failed read; `false` is a
failed write. -/
structure BridgeEnv (V : Type) where
  readVelocityRegs : Option (Nat × Nat)
  readRateRegs : Option (Nat × Nat)
  readPressure : Option V
  readTemperature : Option V
  writeRateOk : Bool
  writeRateBaseOk : Bool

/-- One iteration of the `Commands::BridgeWrite` loop body (main.rs lines
236-272): the list of observable events it emits, in order, and its
outcome. -/
def bridgeCycle {V : Type} (dec : Nat → Nat → V) (cor : V → V → V → V → V)
    (diameter : V) (env : BridgeEnv V) : List (Event V) × Outcome :=
  match env.readVelocityRegs with
  | none => ([], .faulted)
  | some (v0, v1) =>
    let velocity := dec v0 v1
    match env.readRateRegs with
    | none => ([], .faulted)
    | some (r0, r1) =>
      let rate := dec r0 r1
      match env.readPressure with
      | none => ([], .faulted)
      | some pressure =>
        match env.readTemperature with
        | none => ([], .faulted)
        | some temperature =>
          let rate_base := cor velocity diameter pressure temperature
          let report := Event.statusReport velocity pressure temperature rate_base
          let rate_to_plc : TagValue V := ⟨TagType.Real, rate⟩
          let rate_to_plc_base : TagValue V := ⟨TagType.Real, rate_base⟩
          if env.writeRateOk then
            if env.writeRateBaseOk then
              ([report,
                Event.tagWrite TagId.rate_tag rate_to_plc true,
                Event.tagWrite TagId.rate_tag_base rate_to_plc_base true],
               .ok)
            else
              ([report,
                Event.tagWrite TagId.rate_tag rate_to_plc true,
                Event.tagWrite TagId.rate_tag_base rate_to_plc_base false],
               .faulted)
          else
            ([report,
              Event.tagWrite TagId.rate_tag rate_to_plc false],
             .faulted)

/-- Whether an event is a tag write attempt. -/
def Event.isWrite {V : Type} : Event V → Bool
  | .tagWrite _ _ _ => true
  | _ => false

/-- Whether an event is an applied (successful) tag write. -/
def Event.isAppliedWrite {V : Type} : Event V → Bool
  | .tagWrite _ _ ok => ok
  | _ => false

/-- Whether an event is the status report. -/
def Event.isReport {V : Type} : Event V → Bool
  | .statusReport _ _ _ _ => true
  | _ => false

/-- Number of tag write attempts in a trace. -/
def writeCount {V : Type} (tr : List (Event V)) : Nat :=
  tr.countP (fun ev => ev.isWrite)

/-- Number of status reports in a trace. -/
def reportCount {V : Type} (tr : List (Event V)) : Nat :=
  tr.countP (fun ev => ev.isReport)

/-- Every tag write in the trace occurs strictly before every status
report (the ordering asserted by the spec's `Writing → Reporting`). -/
def writesBeforeReport {V : Type} (tr : List (Event V)) : Prop :=
  ∀ i j : Fin tr.length,
    (tr.get i).isWrite = true → (tr.get j).isReport = true → (i : Nat) < (j : Nat)

instance {V : Type} [DecidableEq V] (tr : List (Event V)) :
    Decidable (writesBeforeReport tr) := by
  unfold writesBeforeReport; infer_instance

/-- A concrete register decoder instance for counterexamples. -/
def dec₀ (a b : Nat) : Nat := a * 65536 + b

/-- A concrete corrector instance for counterexamples. -/
def cor₀ (v _d _p _t : Nat) : Nat := v

/-- A concrete all-successful cycle environment. -/
def env₀ : BridgeEnv Nat :=
  { readVelocityRegs := some (1, 2)
    readRateRegs := some (3, 4)
    readPressure := some 5
    readTemperature := some 6
    writeRateOk := true
    writeRateBaseOk := true }

/-- A concrete environment whose pressure-tag read fails. -/
def envPFail : BridgeEnv Nat :=
  { readVelocityRegs := some (1, 2)
    readRateRegs := some (3, 4)
    readPressure := none
    readTemperature := some 6
    writeRateOk := true
    writeRateBaseOk := true }

/-- Counting write attempts to one destination tag. -/
def Event.isWriteTo {V : Type} (tag : TagId) : Event V → Bool
  | .tagWrite t _ _ => decide (t = tag)
  | _ => false

/-- Number of write attempts to a given tag in a trace. -/
def writeAttemptsTo {V : Type} (tag : TagId) (tr : List (Event V)) : Nat :=
  tr.countP (fun ev => Event.isWriteTo tag ev)

/-! ## Claims -/

/-- C5: for all pairs of 16-bit words `(a, b)`, decoding via `u16_to_f32`
and re-encoding the resulting 32-bit float back into a high and a low word
returns exactly `(a, b)`, on either host byte order and for every 32-bit
pattern (NaN and ±Inf patterns included, since `a` and `b` are
arbitrary). -/
theorem u16_to_f32_roundtrip (e : ByteOrder) (a b : Nat)
    (ha : a < 65536) (hb : b < 65536) :
    encode_hi (u16_to_f32 e a b) = a ∧ encode_lo (u16_to_f32 e a b) = b := by
  rw [u16_to_f32_eq]
  unfold encode_hi encode_lo
  constructor <;> omega

/-- Witness for C5, at a NaN pattern: `(0x7FC1, 0x0002)` decodes to the
quiet-NaN pattern `0x7FC10002` and re-encodes to the same two words. -/
theorem u16_to_f32_roundtrip_witness :
    (32705 : Nat) < 65536 ∧ (2 : Nat) < 65536 ∧
    (encode_hi (u16_to_f32 .le 32705 2) = 32705 ∧
      encode_lo (u16_to_f32 .le 32705 2) = 2) ∧
    isNanPat (u16_to_f32 .le 32705 2) :=
  ⟨by norm_num, by norm_num,
    u16_to_f32_roundtrip .le 32705 2 (by norm_num) (by norm_num), by decide⟩

/-- C8: the Register Decoder is total (it is a plain function of the two
words, no error path) and places the first word in the high 16 bits and the
second in the low 16 bits of the 32-bit pattern, which it returns as-is;
moreover every 32-bit pattern `p` — NaN and ±Inf patterns included — is
reachable and returned unchanged, on either host byte order. -/
theorem u16_to_f32_total_placement (e : ByteOrder) (a b p : Nat) :
    u16_to_f32 e a b = (a % 65536) * 65536 + (b % 65536) ∧
    u16_to_f32 e a b < 4294967296 ∧
    u16_to_f32 e (p / 65536 % 65536) (p % 65536) = p % 4294967296 := by
  refine ⟨u16_to_f32_eq e a b, ?_, ?_⟩
  · rw [u16_to_f32_eq]; exact combined_lt a b
  · rw [u16_to_f32_eq]; omega

/-- C9: the `to_ne_bytes` / `from_ne_bytes` pair cancels, so on either host
byte order the decoder equals the direct
`f32::from_bits(((a as u32) << 16) | b as u32)` and its result is
independent of host endianness. -/
theorem u16_to_f32_endianness_independent (e : ByteOrder) (a b : Nat) :
    u16_to_f32 e a b = u16_to_f32_direct a b ∧
    u16_to_f32 .le a b = u16_to_f32 .be a b := by
  constructor
  · rw [u16_to_f32_eq]
    unfold u16_to_f32_direct
    rw [shiftLeft_or_eq_mul_add]
  · rw [u16_to_f32_eq, u16_to_f32_eq]

/-- C3: for every velocity, diameter, pressure and temperature, the Flow
Corrector equals the spec's factored form: actual flow from velocity and
cross-sectional area, times `actual_pressure_abs / base_pressure_abs`,
times `base_temp_abs / actual_temp_abs`, times `z_base / z_actual` with
`z_base` evaluated at 14.73 psia and 60 °F with the fixed composition,
followed by the fixed unit conversions to Sm³/day. -/
theorem velocity_to_rate_eq_spec (z : Composition → ℚ → ℚ → ℚ)
    (velocity diameter pressure temperature : ℚ) :
    velocity_to_rate z velocity diameter pressure temperature =
      correct_rate_spec z velocity diameter pressure temperature := by
  unfold velocity_to_rate correct_rate_spec actual_flow cross_section_area
    actual_pressure_abs base_pressure_abs base_temp_abs actual_temp_abs
    z_base z_actual
  ring

/-- C4: zero velocity yields exactly zero corrected flow, for any diameter,
pressure, temperature and any equation-of-state model. -/
theorem velocity_to_rate_zero (z : Composition → ℚ → ℚ → ℚ)
    (diameter pressure temperature : ℚ) :
    velocity_to_rate z 0 diameter pressure temperature = 0 := by
  unfold velocity_to_rate
  ring

/-- C1 (code bug): the live compressibility factor is evaluated at the raw
gauge pressure scaled to kPa (`pressure * 100`), not at the absolute
pressure (gauge + atmospheric offset).  Two equation-of-state models that
agree at the absolute live pressure (≈ 601.3 kPa for 5 barg) and at the
base condition, but differ at the gauge value 500 kPa, give different
corrected rates at velocity 10 m/s, diameter 6 in, 5 barg, 20 °C — so the
solve is consulted at the gauge pressure, contradicting the spec's
"all pressures are converted to absolute scales before use in the equation
of state". -/
theorem z_actual_at_gauge_pressure :
    zProbe comp (actual_pressure_abs_kPa 5) (20 + 273.15) =
      zOne comp (actual_pressure_abs_kPa 5) (20 + 273.15) ∧
    zProbe comp (14.73 * 6.89476) ((60.0 - 32.0) * 5.0 / 9.0 + 273.15) =
      zOne comp (14.73 * 6.89476) ((60.0 - 32.0) * 5.0 / 9.0 + 273.15) ∧
    actual_pressure_abs_kPa 5 ≠ 5 * 100 ∧
    z_actual zProbe 5 20 ≠ z_actual zOne 5 20 ∧
    velocity_to_rate zProbe 10 6 5 20 ≠ velocity_to_rate zOne 10 6 5 20 := by
  refine ⟨?_, ?_, ?_, ?_, ?_⟩
  · unfold zProbe zOne
    rw [if_neg (by unfold actual_pressure_abs_kPa; norm_num)]
  · unfold zProbe zOne
    rw [if_neg (by norm_num)]
  · unfold actual_pressure_abs_kPa
    norm_num
  · unfold z_actual zProbe zOne
    rw [if_pos (by norm_num)]
    norm_num
  · unfold velocity_to_rate zProbe zOne pi32
    rw [if_pos (by norm_num), if_neg (by norm_num)]
    norm_num

/-- C2 (counterexample): in a fully successful cycle the loop does issue
exactly two writes and one status report, but the status report is emitted
before the writes (main.rs line 250 precedes lines 263-270), so the claimed
order "writes before the status report" (`Writing` then `Reporting`) is
false on a concrete successful cycle. -/
theorem writes_not_before_report :
    (bridgeCycle dec₀ cor₀ 7 env₀).2 = Outcome.ok ∧
    writeCount (bridgeCycle dec₀ cor₀ 7 env₀).1 = 2 ∧
    reportCount (bridgeCycle dec₀ cor₀ 7 env₀).1 = 1 ∧
    ¬ writesBeforeReport (bridgeCycle dec₀ cor₀ 7 env₀).1 := by
  decide

/-- C2 (amended): in every bridge cycle in which all reads and writes
succeed, the loop body issues exactly two tag writes (first the raw rate,
then the corrected base rate) and exactly one status report, with the
status report occurring before the writes — the executed order is
Reporting then Writing. -/
theorem cycle_two_writes_one_report {V : Type}
    (dec : Nat → Nat → V) (cor : V → V → V → V → V) (diameter : V)
    (v0 v1 r0 r1 : Nat) (p t : V) :
    bridgeCycle dec cor diameter
        ⟨some (v0, v1), some (r0, r1), some p, some t, true, true⟩ =
      ([Event.statusReport (dec v0 v1) p t (cor (dec v0 v1) diameter p t),
        Event.tagWrite TagId.rate_tag ⟨TagType.Real, dec r0 r1⟩ true,
        Event.tagWrite TagId.rate_tag_base
          ⟨TagType.Real, cor (dec v0 v1) diameter p t⟩ true],
       Outcome.ok) ∧
    writeCount (bridgeCycle dec cor diameter
        ⟨some (v0, v1), some (r0, r1), some p, some t, true, true⟩).1 = 2 ∧
    reportCount (bridgeCycle dec cor diameter
        ⟨some (v0, v1), some (r0, r1), some p, some t, true, true⟩).1 = 1 :=
  ⟨rfl, rfl, rfl⟩

/-- C6: if any of the four per-cycle reads fails (either register read, or
the pressure or temperature tag read), the cycle ends in the faulted
outcome with an empty event trace — in particular no tag write is issued
that cycle. -/
theorem read_failure_no_writes {V : Type}
    (dec : Nat → Nat → V) (cor : V → V → V → V → V) (diameter : V)
    (env : BridgeEnv V)
    (h : env.readVelocityRegs = none ∨ env.readRateRegs = none ∨
         env.readPressure = none ∨ env.readTemperature = none) :
    bridgeCycle dec cor diameter env = ([], Outcome.faulted) := by
  obtain ⟨rv, rr, rp, rt, w1, w2⟩ := env
  cases rv with
  | none => rfl
  | some pv =>
    obtain ⟨v0, v1⟩ := pv
    cases rr with
    | none => rfl
    | some pr =>
      obtain ⟨r0, r1⟩ := pr
      cases rp with
      | none => rfl
      | some pp =>
        cases rt with
        | none => rfl
        | some pt =>
          rcases h with h | h | h | h <;> simp at h

/-- Witness for C6: a cycle whose pressure-tag read fails ends faulted with
no writes. -/
theorem read_failure_no_writes_witness :
    envPFail.readPressure = none ∧
    bridgeCycle dec₀ cor₀ 7 envPFail = ([], Outcome.faulted) :=
  ⟨rfl, read_failure_no_writes dec₀ cor₀ 7 envPFail (Or.inr (Or.inr (Or.inl rfl)))⟩

/-- C7: if the second tag write (corrected base rate) fails after the first
tag write (raw rate) has succeeded, the trace ends with the failed base
write: the raw write remains the only applied write (nothing rolls it
back), the cycle ends faulted, and each of the two writes was attempted
exactly once (no retry). -/
theorem partial_write_not_rolled_back {V : Type}
    (dec : Nat → Nat → V) (cor : V → V → V → V → V) (diameter : V)
    (v0 v1 r0 r1 : Nat) (p t : V) :
    bridgeCycle dec cor diameter
        ⟨some (v0, v1), some (r0, r1), some p, some t, true, false⟩ =
      ([Event.statusReport (dec v0 v1) p t (cor (dec v0 v1) diameter p t),
        Event.tagWrite TagId.rate_tag ⟨TagType.Real, dec r0 r1⟩ true,
        Event.tagWrite TagId.rate_tag_base
          ⟨TagType.Real, cor (dec v0 v1) diameter p t⟩ false],
       Outcome.faulted) ∧
    (bridgeCycle dec cor diameter
        ⟨some (v0, v1), some (r0, r1), some p, some t, true, false⟩).1.filter
        (fun ev => ev.isAppliedWrite) =
      [Event.tagWrite TagId.rate_tag ⟨TagType.Real, dec r0 r1⟩ true] ∧
    writeAttemptsTo TagId.rate_tag
      (bridgeCycle dec cor diameter
        ⟨some (v0, v1), some (r0, r1), some p, some t, true, false⟩).1 = 1 ∧
    writeAttemptsTo TagId.rate_tag_base
      (bridgeCycle dec cor diameter
        ⟨some (v0, v1), some (r0, r1), some p, some t, true, false⟩).1 = 1 :=
  ⟨rfl, rfl, rfl, rfl⟩

/-- C10: in a fully successful cycle, the applied writes are exactly: the
raw-rate tag receives the value decoded from the rate register pair with no
further conversion, and the base-rate tag receives exactly the Flow
Corrector's output for that cycle's decoded velocity, configured diameter,
and the pressure and temperature read that cycle; both written `TagValue`s
carry tag type `Real`. -/
theorem cycle_written_values {V : Type}
    (dec : Nat → Nat → V) (cor : V → V → V → V → V) (diameter : V)
    (v0 v1 r0 r1 : Nat) (p t : V) :
    (bridgeCycle dec cor diameter
        ⟨some (v0, v1), some (r0, r1), some p, some t, true, true⟩).1.filter
        (fun ev => ev.isAppliedWrite) =
      [Event.tagWrite TagId.rate_tag ⟨TagType.Real, dec r0 r1⟩ true,
       Event.tagWrite TagId.rate_tag_base
         ⟨TagType.Real, cor (dec v0 v1) diameter p t⟩ true] :=
  rfl

end Cobalt
